import Mathlib

set_option maxHeartbeats 1000000

/-!
Shallow embedding of the hangram Korean-tutor bot core: the per-user
session state machine and mode dispatcher (bot main file), the session
store (sessions.js), the score aggregator, and the audio ingestion
pipeline (ai.js, transcribeAudioFromUrl).  External capabilities
(generation, evaluation, TTS, transcription, ffmpeg, the Telegram
transport) are modelled as oracle arguments: a handler receives the
outcome each external call would produce and folds it into the session
exactly as the JavaScript does.
-/

namespace Hangram

/-- JavaScript number as used by the score paths: a finite integer value
or one of the non-finite values (`NaN`, `Infinity`, `-Infinity`).
Scores in this program are small integers, so the finite case is `Int`. -/
inductive JsNum
  | num (v : Int)
  | nan
  | posInf
  | negInf
deriving DecidableEq, Repr

/-- `Number.isFinite` on a `JsNum`. -/
def JsNum.isFinite : JsNum → Bool
  | .num _ => true
  | _ => false

/-- Sub-state of the reading and listening modes
(`"idle" | "waiting_for_answers"` in sessions.js). -/
inductive RLState
  | idle
  | waiting_for_answers
deriving DecidableEq, Repr

/-- Sub-state of the speaking mode (`"idle" | "waiting_for_voice"`). -/
inductive SpeakState
  | idle
  | waiting_for_voice
deriving DecidableEq, Repr

/-- A reading/listening exercise: `{ text, questions }`. -/
structure Exercise where
  text : String
  questions : List String
deriving DecidableEq, Repr

/-- A speaking exercise: `{ topic, prompt_ko, prompt_ru }`. -/
structure SpeakingExercise where
  topic : String
  prompt_ko : String
  prompt_ru : String
deriving DecidableEq, Repr

/-- The `reading` / `listening` field of a session. -/
structure RLSub where
  state : RLState
  exercise : Option Exercise
deriving DecidableEq, Repr

/-- The `speaking` field of a session. -/
structure SpeakSub where
  state : SpeakState
  exercise : Option SpeakingExercise
  lastTranscript : Option String
deriving DecidableEq, Repr

/-- The four practice modes (`session.practiceType` values). -/
inductive PracticeType
  | reading
  | listening
  | speaking
  | free
deriving DecidableEq, Repr

/-- `session.stats`. -/
structure Stats where
  totalScore : Int
deriving DecidableEq, Repr

/-- A per-user session, as created by `createEmptySession` in sessions.js. -/
structure Session where
  level : Option String
  practiceType : Option PracticeType
  stats : Stats
  reading : RLSub
  listening : RLSub
  speaking : SpeakSub
deriving DecidableEq, Repr

/-- `createEmptySession()` from sessions.js. -/
def createEmptySession : Session where
  level := none
  practiceType := none
  stats := { totalScore := 0 }
  reading := { state := .idle, exercise := none }
  listening := { state := .idle, exercise := none }
  speaking := { state := .idle, exercise := none, lastTranscript := none }

/-- `resetSession(userId)` replaces the entry with a fresh default session;
its effect on the single session it touches. -/
def resetSession (_s : Session) : Session := createEmptySession

/-- `addScoreToStats(session, score)` from the bot main file:
`value = Number(score); if (!Number.isFinite(value)) return;`
then `totalScore = Math.max(0, current + value)`. -/
def addScoreToStats (session : Session) (score : JsNum) : Session :=
  match score with
  | .num v =>
    let current := session.stats.totalScore
    let updated := current + v
    { session with stats := { totalScore := max 0 updated } }
  | _ => session

/-- The display clamp `Math.max(0, Math.min(500, score))` used by
`buildProgressBar`, `getRamyunLevelMeta` and the progress handler. -/
def clampDisplay (score : Int) : Int := max 0 (min 500 score)

/-- The filled/empty block counts computed inside `buildProgressBar`:
`filled = Math.round((s / 500) * totalBlocks)` with `totalBlocks = 10`,
`empty = totalBlocks - filled`.  `Math.round` rounds half toward
positive infinity, which is Mathlib's `round` on the rationals. -/
def progressCounts (score : Int) : Int × Int :=
  let s := clampDisplay score
  let totalBlocks : Int := 10
  let filled := round ((s : ℚ) / 500 * (totalBlocks : ℚ))
  (filled, totalBlocks - filled)

/-- `buildProgressBar(score)`: the bar string of `filled` black blocks
followed by `empty` white blocks. -/
def buildProgressBar (score : Int) : String :=
  let c := progressCounts score
  String.join (List.replicate c.1.toNat "⬛") ++
    String.join (List.replicate c.2.toNat "⬜")

/-- The record returned by `getRamyunLevelMeta`. -/
structure RamyunLevelMeta where
  name : String
  description : String
  imageUrl : String
deriving DecidableEq, Repr

/-- `getRamyunLevelMeta(score)` from the bot main file: clamp to `[0,500]`
then pick one of five tier records by `s < 100`, `s < 200`, `s < 300`,
`s < 400`, else the top tier. -/
def getRamyunLevelMeta (score : Int) : RamyunLevelMeta :=
  let s := max 0 (min 500 score)
  if s < 100 then
    { name := "Ramyun Mild"
      description := "Very mild level 🌱 You're just getting started; the spicy stuff is still ahead!"
      imageUrl := "https://i.ibb.co/LKNMnbC/ramyunmild.png" }
  else if s < 200 then
    { name := "Ramyun Original"
      description := "Classic flavor 🍜 You feel more comfortable now, but there's still a way to go before the real heat."
      imageUrl := "https://i.ibb.co/V0TxghVh/neoguriramyun.jpg" }
  else if s < 300 then
    { name := "Ramyun Spicy"
      description := "Spicy ramyun 🌶 You're confident in Korean and not afraid of challenges."
      imageUrl := "https://i.ibb.co/bRHrxBPk/jinramyon.jpg" }
  else if s < 400 then
    { name := "Ramyun Very Spicy"
      description := "Very spicy ramyun 🔥 You're advanced now; your grammar and vocabulary are in good shape."
      imageUrl := "https://i.ibb.co/QSDtykx/shinramyon.jpg" }
  else
    { name := "Ramyun Nuclear"
      description := "NUCLEAR RAMYUN ☢️ You're almost Korean — you can eat and speak like a local."
      imageUrl := "https://i.ibb.co/3mpfbWn0/buldakramyon.jpg" }

/-! ## Audio ingestion pipeline (`transcribeAudioFromUrl` in ai.js) -/

/-- Error kinds of the audio pipeline. -/
inductive PipeError
  | download
  | transcode
  | transcription
deriving DecidableEq, Repr

/-- Outcomes of the external steps inside `transcribeAudioFromUrl`:
whether the fetch response was ok, whether ffmpeg succeeded, the
transcription result (`transcription.text` may be absent), and whether
each `fs.promises.unlink` would succeed. -/
structure AudioOracle where
  downloadOk : Bool
  transcodeOk : Bool
  transcription : Except Unit (Option String)
  unlinkOggOk : Bool
  unlinkMp3Ok : Bool

/-- The scratch `.oga` path `input-${ts}.oga`. -/
def oggName (ts : Nat) : String := "input-" ++ toString ts ++ ".oga"

/-- The scratch `.mp3` path `output-${ts}.mp3`. -/
def mp3Name (ts : Nat) : String := "output-" ++ toString ts ++ ".mp3"

/-- `transcribeAudioFromUrl(fileUrl)` from ai.js, as a function of the
external-step outcomes and the timestamp `ts = Date.now()`.  Returns the
call's result together with the list of scratch files still on disk when
the call exits.  The function has no try/finally: the two unlink calls
(step 5, failures swallowed by `.catch(() => {})`) run only after a
successful transcription.  Modelling choice: the mp3 file counts as
created only by a successful transcode; on a transcode error only the
written `.oga` input certainly remains. -/
def transcribeAudioFromUrl (o : AudioOracle) (ts : Nat) :
    Except PipeError String × List String :=
  if !o.downloadOk then
    (.error .download, [])
  else
    let ogg := oggName ts
    if !o.transcodeOk then
      (.error .transcode, [ogg])
    else
      let mp3 := mp3Name ts
      match o.transcription with
      | .error _ => (.error .transcription, [ogg, mp3])
      | .ok t =>
        let rest :=
          (if o.unlinkOggOk then [] else [ogg]) ++
            (if o.unlinkMp3Ok then [] else [mp3])
        (.ok (t.getD "").trim, rest)

/-! ## Gateway requests, evaluation results, handler outcomes -/

/-- A request the bot sends to an external capability (the arguments the
JavaScript passes to the corresponding ai.js function). -/
inductive GwRequest
  | generateReading (level : String)
  | evaluateReading (level : String) (text : String) (questions : List String)
      (userAnswers : String)
  | tts (text : String)
  | generateSpeaking (level : String)
  | evaluateSpeaking (level topic promptKo promptRu transcript : String)
  | freeChat (level : String) (userMessage : String)
  | transcribeVoice
deriving DecidableEq, Repr

/-- How a handler run ends, seen from the user/transport side:
a success reply, an error reply from a catch block, the "no active
task" reply, the "please send a voice message" reminder, or fall-through
to the next middleware (`next()`). -/
inductive Outcome
  | success
  | failure
  | noActiveExercise
  | reminder
  | notConsumed
deriving DecidableEq, Repr

/-- A handler's effect: the updated session, the outcome, and the
requests issued to external capabilities, in order. -/
structure OpResult where
  session : Session
  outcome : Outcome
  requests : List GwRequest

/-- The part of an `evaluateReadingAnswers` result the session logic
inspects: `result.score` when `typeof result.score === "number"`
(`per_question` and `overall_feedback` only shape the reply text). -/
structure ReadingEval where
  score : Option JsNum

/-- The part of an `evaluateSpeakingResponse` result the session logic
inspects (`feedback` and `sample_answer_ko` only shape the reply text). -/
structure SpeakingEval where
  score : Option JsNum

/-! ## Mode controllers (handlers in the bot main file) -/

/-- `startReadingExercise(ctx, session)`: `level = session.level || "1"`,
request a reading exercise; on success set
`reading = { state: waiting_for_answers, exercise }`; the catch block
leaves the session untouched. -/
def startReadingExercise (gen : String → Except Unit Exercise)
    (s : Session) : OpResult :=
  let level := s.level.getD "1"
  match gen level with
  | .ok exercise =>
    { session := { s with
        reading := { state := .waiting_for_answers, exercise := some exercise } }
      outcome := .success
      requests := [.generateReading level] }
  | .error _ =>
    { session := s, outcome := .failure, requests := [.generateReading level] }

/-- `startListeningExercise(ctx, session)`: generate (same generator as
reading), store `listening = { state: waiting_for_answers, exercise }`,
then synthesize speech from `exercise.text`.  The store happens before
the TTS call, so a TTS failure lands in the catch block with the
session already mutated. -/
def startListeningExercise (gen : String → Except Unit Exercise)
    (tts : String → Except Unit Unit) (s : Session) : OpResult :=
  let level := s.level.getD "1"
  match gen level with
  | .error _ =>
    { session := s, outcome := .failure, requests := [.generateReading level] }
  | .ok exercise =>
    let s1 := { s with
      listening := { state := .waiting_for_answers, exercise := some exercise } }
    match tts exercise.text with
    | .error _ =>
      { session := s1, outcome := .failure
        requests := [.generateReading level, .tts exercise.text] }
    | .ok _ =>
      { session := s1, outcome := .success
        requests := [.generateReading level, .tts exercise.text] }

/-- `startSpeakingExercise(ctx, session)`: on success set
`speaking = { state: waiting_for_voice, exercise, lastTranscript: null }`;
the catch block leaves the session untouched. -/
def startSpeakingExercise (gen : String → Except Unit SpeakingExercise)
    (s : Session) : OpResult :=
  let level := s.level.getD "1"
  match gen level with
  | .ok exercise =>
    { session := { s with
        speaking := { state := .waiting_for_voice, exercise := some exercise
                      lastTranscript := none } }
      outcome := .success
      requests := [.generateSpeaking level] }
  | .error _ =>
    { session := s, outcome := .failure, requests := [.generateSpeaking level] }

/-- `startFreeChat(ctx, session)`: one free-chat request with an empty
user message; no session mutation on any path. -/
def startFreeChat (chat : String → String → Except Unit Unit)
    (s : Session) : OpResult :=
  let level := s.level.getD "1"
  match chat level "" with
  | .ok _ => { session := s, outcome := .success, requests := [.freeChat level ""] }
  | .error _ => { session := s, outcome := .failure, requests := [.freeChat level ""] }

/-- `handleFreeChatMessage(ctx, session, userText, source)`: one
free-chat request with the user's text; no session mutation on any path. -/
def handleFreeChatMessage (chat : String → String → Except Unit Unit)
    (userText : String) (s : Session) : OpResult :=
  let level := s.level.getD "1"
  match chat level userText with
  | .ok _ =>
    { session := s, outcome := .success, requests := [.freeChat level userText] }
  | .error _ =>
    { session := s, outcome := .failure, requests := [.freeChat level userText] }

/-- `handleReadingAnswers(ctx, session, userAnswersText)`: reply
"no active reading task" and return if `exercise` is null; otherwise
evaluate, apply the score when it is a number, and set
`reading.state = "idle"`; the catch block leaves the session untouched. -/
def handleReadingAnswers
    (evalAnswers : String → String → List String → String → Except Unit ReadingEval)
    (userAnswersText : String) (s : Session) : OpResult :=
  let level := s.level.getD "1"
  match s.reading.exercise with
  | none => { session := s, outcome := .noActiveExercise, requests := [] }
  | some ex =>
    let req := GwRequest.evaluateReading level ex.text ex.questions userAnswersText
    match evalAnswers level ex.text ex.questions userAnswersText with
    | .error _ => { session := s, outcome := .failure, requests := [req] }
    | .ok result =>
      let s1 := match result.score with
        | some v => addScoreToStats s v
        | none => s
      { session := { s1 with reading := { s1.reading with state := .idle } }
        outcome := .success
        requests := [req] }

/-- `handleListeningAnswers(ctx, session, userAnswersText)`: identical
to the reading variant over the `listening` sub-state. -/
def handleListeningAnswers
    (evalAnswers : String → String → List String → String → Except Unit ReadingEval)
    (userAnswersText : String) (s : Session) : OpResult :=
  let level := s.level.getD "1"
  match s.listening.exercise with
  | none => { session := s, outcome := .noActiveExercise, requests := [] }
  | some ex =>
    let req := GwRequest.evaluateReading level ex.text ex.questions userAnswersText
    match evalAnswers level ex.text ex.questions userAnswersText with
    | .error _ => { session := s, outcome := .failure, requests := [req] }
    | .ok result =>
      let s1 := match result.score with
        | some v => addScoreToStats s v
        | none => s
      { session := { s1 with listening := { s1.listening with state := .idle } }
        outcome := .success
        requests := [req] }

/-! ## Dispatcher (practice-choice actions, `bot.on("text")`, `bot.on("voice")`) -/

/-- The outcomes every external call of one inbound event would produce,
bundled so a dispatcher run can be expressed as a pure function.
`transcribeResult` is the result of `transcribeAudioFromUrl` for the
event's voice file. -/
structure Oracles where
  genReading : String → Except Unit Exercise
  tts : String → Except Unit Unit
  evalReading : String → String → List String → String → Except Unit ReadingEval
  genSpeaking : String → Except Unit SpeakingExercise
  evalSpeaking : String → String → String → String → String → Except Unit SpeakingEval
  chat : String → String → Except Unit Unit
  transcribeResult : Except Unit String

/-- `handlePracticeChoice(ctx, type)`: set `session.practiceType = type`,
then start the chosen mode (free chat starts with an empty message).
No other mode's sub-state is touched. -/
def handlePracticeChoice (o : Oracles) (t : PracticeType) (s : Session) : OpResult :=
  let s1 := { s with practiceType := some t }
  match t with
  | .reading => startReadingExercise o.genReading s1
  | .speaking => startSpeakingExercise o.genSpeaking s1
  | .listening => startListeningExercise o.genReading o.tts s1
  | .free => startFreeChat o.chat s1

/-- The `READING_NEXT` action: `practiceType = "reading"` then
`startReadingExercise`. -/
def readingNext (o : Oracles) (s : Session) : OpResult :=
  startReadingExercise o.genReading { s with practiceType := some .reading }

/-- The `LISTENING_NEXT` action. -/
def listeningNext (o : Oracles) (s : Session) : OpResult :=
  startListeningExercise o.genReading o.tts { s with practiceType := some .listening }

/-- The `SPEAKING_NEXT` action. -/
def speakingNext (o : Oracles) (s : Session) : OpResult :=
  startSpeakingExercise o.genSpeaking { s with practiceType := some .speaking }

/-- The `CHANGE_MODE_INLINE` action: `session.practiceType = null`. -/
def changeModeInline (s : Session) : Session := { s with practiceType := none }

/-- A `LEVEL_n` action: `session.level = lvl`. -/
def levelSelect (lvl : String) (s : Session) : Session := { s with level := some lvl }

/-- The "Change difficulty" bottom-keyboard handler: `session.level = null`. -/
def hearsChangeLevel (s : Session) : Session := { s with level := none }

/-- `bot.on("text")`: menu texts fall through to the `bot.hears`
handlers; otherwise route on `practiceType` and the mode sub-state.
A text while speaking waits for voice only emits a reminder. -/
def onText (o : Oracles) (text : String) (s : Session) : OpResult :=
  if text = "Change difficulty" ∨ text = "Change mode" ∨ text = "See progress" then
    { session := s, outcome := .notConsumed, requests := [] }
  else if s.practiceType = some .free then
    handleFreeChatMessage o.chat text s
  else if s.practiceType = some .reading ∧ s.reading.state = .waiting_for_answers then
    handleReadingAnswers o.evalReading text s
  else if s.practiceType = some .listening ∧ s.listening.state = .waiting_for_answers then
    handleListeningAnswers o.evalReading text s
  else if s.practiceType = some .speaking ∧ s.speaking.state = .waiting_for_voice then
    { session := s, outcome := .reminder, requests := [] }
  else
    { session := s, outcome := .notConsumed, requests := [] }

/-- `bot.on("voice")`: in free mode, transcribe then treat the transcript
as a free-chat message.  In speaking mode waiting for voice: transcribe,
store the transcript into `lastTranscript`, then evaluate; the score is
applied and the state set to `"idle"` only on evaluation success.  A
null `speaking.exercise` after the store raises on `exercise.topic` and
is caught (handled as a failure).  Any other session falls through. -/
def onVoice (o : Oracles) (s : Session) : OpResult :=
  if s.practiceType = some .free then
    match o.transcribeResult with
    | .error _ => { session := s, outcome := .failure, requests := [.transcribeVoice] }
    | .ok transcript =>
      let r := handleFreeChatMessage o.chat transcript s
      { r with requests := .transcribeVoice :: r.requests }
  else if s.practiceType ≠ some .speaking ∨ s.speaking.state ≠ .waiting_for_voice then
    { session := s, outcome := .notConsumed, requests := [] }
  else
    match o.transcribeResult with
    | .error _ => { session := s, outcome := .failure, requests := [.transcribeVoice] }
    | .ok transcript =>
      let s1 := { s with speaking := { s.speaking with lastTranscript := some transcript } }
      let level := s.level.getD "1"
      match s1.speaking.exercise with
      | none => { session := s1, outcome := .failure, requests := [.transcribeVoice] }
      | some ex =>
        let req := GwRequest.evaluateSpeaking level ex.topic ex.prompt_ko ex.prompt_ru transcript
        match o.evalSpeaking level ex.topic ex.prompt_ko ex.prompt_ru transcript with
        | .error _ =>
          { session := s1, outcome := .failure, requests := [.transcribeVoice, req] }
        | .ok result =>
          let s2 := match result.score with
            | some v => addScoreToStats s1 v
            | none => s1
          { session := { s2 with speaking := { s2.speaking with state := .idle } }
            outcome := .success
            requests := [.transcribeVoice, req] }

/-! ## Reachable sessions -/

/-- One inbound event's effect on a single user's session: `/start`
(resets), level selection, "Change difficulty", a practice-choice
action, a text, a voice note, one of the NEXT actions, or
`CHANGE_MODE_INLINE`.  The oracle is existentially packed in each
constructor, so the relation covers every external-call outcome. -/
inductive Step : Session → Session → Prop
  | start (s : Session) : Step s createEmptySession
  | level (s : Session) (lvl : String) : Step s (levelSelect lvl s)
  | changeLevel (s : Session) : Step s (hearsChangeLevel s)
  | choice (s : Session) (o : Oracles) (t : PracticeType) :
      Step s (handlePracticeChoice o t s).session
  | text (s : Session) (o : Oracles) (txt : String) :
      Step s (onText o txt s).session
  | voice (s : Session) (o : Oracles) : Step s (onVoice o s).session
  | nextReading (s : Session) (o : Oracles) : Step s (readingNext o s).session
  | nextListening (s : Session) (o : Oracles) : Step s (listeningNext o s).session
  | nextSpeaking (s : Session) (o : Oracles) : Step s (speakingNext o s).session
  | modeInline (s : Session) : Step s (changeModeInline s)

/-- A session state reachable from a fresh session through the public
operations. -/
def Reachable (s : Session) : Prop :=
  Relation.ReflTransGen Step createEmptySession s

/-- The invariant of claim C7: a waiting sub-state owns an exercise. -/
def WaitingHasExercise (s : Session) : Prop :=
  (s.reading.state = .waiting_for_answers → s.reading.exercise.isSome) ∧
  (s.listening.state = .waiting_for_answers → s.listening.exercise.isSome) ∧
  (s.speaking.state = .waiting_for_voice → s.speaking.exercise.isSome)

/-! ## Concrete fixtures -/

/-- A concrete reading/listening exercise. -/
def exA : Exercise where
  text := "나는 아침에 학교에 갑니다."
  questions := ["q1", "q2", "q3", "q4", "q5"]

/-- A concrete speaking exercise. -/
def spA : SpeakingExercise where
  topic := "food"
  prompt_ko := "좋아하는 음식에 대해 말해 보세요."
  prompt_ru := "Talk about your favorite food."

/-- An oracle where every external call succeeds. -/
def oracleOk : Oracles where
  genReading := fun _ => .ok exA
  tts := fun _ => .ok ()
  evalReading := fun _ _ _ _ => .ok { score := some (.num 7) }
  genSpeaking := fun _ => .ok spA
  evalSpeaking := fun _ _ _ _ _ => .ok { score := some (.num 7) }
  chat := fun _ _ => .ok ()
  transcribeResult := .ok "저는 김치를 좋아해요."

/-- `oracleOk` with a failing speech synthesis. -/
def oracleTtsFail : Oracles := { oracleOk with tts := fun _ => .error () }

/-- `oracleOk` with a failing speaking evaluation. -/
def oracleEvalSpeakFail : Oracles :=
  { oracleOk with evalSpeaking := fun _ _ _ _ _ => .error () }

/-- A session in reading mode, waiting for answers on `exA`. -/
def sessionReadingWaiting : Session :=
  { createEmptySession with
    level := some "3"
    practiceType := some .reading
    reading := { state := .waiting_for_answers, exercise := some exA } }

/-- A session in speaking mode (level unset), waiting for a voice note
on `spA`. -/
def sessionSpeakingWaiting : Session :=
  { createEmptySession with
    practiceType := some .speaking
    speaking := { state := .waiting_for_voice, exercise := some spA
                  lastTranscript := none } }

/-! ## Projection helper lemmas -/

lemma addScoreToStats_reading (s : Session) (d : JsNum) :
    (addScoreToStats s d).reading = s.reading := by
  cases d <;> rfl

lemma addScoreToStats_listening (s : Session) (d : JsNum) :
    (addScoreToStats s d).listening = s.listening := by
  cases d <;> rfl

lemma addScoreToStats_speaking (s : Session) (d : JsNum) :
    (addScoreToStats s d).speaking = s.speaking := by
  cases d <;> rfl

/-! ## Claim theorems -/

/-- C5: `addScoreToStats` (the spec's `applyDelta`) sets the total to
`max 0 (total + delta)` for a finite delta, is a no-op for a non-finite
delta, and never leaves a negative total. -/
theorem applyDelta_spec (s : Session) (d : JsNum) :
    (∀ v : Int, d = .num v →
      addScoreToStats s d =
        { s with stats := { totalScore := max 0 (s.stats.totalScore + v) } }) ∧
    (d.isFinite = false → addScoreToStats s d = s) ∧
    (0 ≤ s.stats.totalScore → 0 ≤ (addScoreToStats s d).stats.totalScore) := by
  refine ⟨?_, ?_, ?_⟩
  · rintro v rfl
    rfl
  · intro h
    cases d <;> simp [JsNum.isFinite] at h ⊢ <;> rfl
  · intro h
    cases d <;> simp [addScoreToStats] <;> omega

/-- C5 witness: the floor at zero on `applyDelta(0, -5)` and the no-op
on a NaN delta, at the fresh session. -/
theorem applyDelta_spec_witness :
    addScoreToStats createEmptySession (.num (-5)) =
      { createEmptySession with
        stats := { totalScore := max 0 (createEmptySession.stats.totalScore + (-5)) } } ∧
    addScoreToStats createEmptySession .nan = createEmptySession ∧
    0 ≤ (addScoreToStats createEmptySession (.num (-5))).stats.totalScore :=
  ⟨(applyDelta_spec createEmptySession (.num (-5))).1 (-5) rfl,
   (applyDelta_spec createEmptySession .nan).2.1 rfl,
   (applyDelta_spec createEmptySession (.num (-5))).2.2 (by decide)⟩

/-- C9: on the clamped range the progress bar counts are
`filled = round(t / 500 * 10)` and `empty = 10 - filled`, with the three
anchor values `(5,5)`, `(0,10)` and `(10,0)`. -/
theorem progressBar_spec :
    (∀ t : Int, 0 ≤ t → t ≤ 500 →
      progressCounts t =
        (round ((t : ℚ) / 500 * 10), 10 - round ((t : ℚ) / 500 * 10))) ∧
    progressCounts 250 = (5, 5) ∧
    progressCounts 0 = (0, 10) ∧
    progressCounts 500 = (10, 0) := by
  refine ⟨?_, ?_, ?_, ?_⟩
  · intro t h0 h500
    have hc : clampDisplay t = t := by
      simp only [clampDisplay]
      omega
    simp [progressCounts, hc]
  · norm_num [progressCounts, clampDisplay, round_eq]
  · norm_num [progressCounts, clampDisplay, round_eq]
  · norm_num [progressCounts, clampDisplay, round_eq]

/-- C9 witness: the quantified part of `progressBar_spec` at `t = 250`. -/
theorem progressBar_spec_witness :
    progressCounts 250 =
      (round ((250 : ℚ) / 500 * 10), 10 - round ((250 : ℚ) / 500 * 10)) :=
  progressBar_spec.1 250 (by norm_num) (by norm_num)

/-- C8: the five ramyun tiers partition `[0,500]` into the contiguous
bands `[0,100)`, `[100,200)`, `[200,300)`, `[300,400)`, `[400,500]`,
constant on each band; the five band representatives are pairwise
distinct, and the `99`/`100` boundary separates tiers. -/
theorem tierOf_spec :
    (∀ t : Int, 0 ≤ t → t < 100 → getRamyunLevelMeta t = getRamyunLevelMeta 0) ∧
    (∀ t : Int, 100 ≤ t → t < 200 → getRamyunLevelMeta t = getRamyunLevelMeta 100) ∧
    (∀ t : Int, 200 ≤ t → t < 300 → getRamyunLevelMeta t = getRamyunLevelMeta 200) ∧
    (∀ t : Int, 300 ≤ t → t < 400 → getRamyunLevelMeta t = getRamyunLevelMeta 300) ∧
    (∀ t : Int, 400 ≤ t → t ≤ 500 → getRamyunLevelMeta t = getRamyunLevelMeta 400) ∧
    ([getRamyunLevelMeta 0, getRamyunLevelMeta 100, getRamyunLevelMeta 200,
      getRamyunLevelMeta 300, getRamyunLevelMeta 400].Pairwise (· ≠ ·)) ∧
    getRamyunLevelMeta 99 ≠ getRamyunLevelMeta 100 := by
  refine ⟨?_, ?_, ?_, ?_, ?_, by decide, by decide⟩ <;>
    · intro t h1 h2
      have hs : max 0 (min 500 t) = t := by omega
      simp only [getRamyunLevelMeta, hs]
      norm_num
      split_ifs <;> first | rfl | omega

/-- C8 witness: one point of each band through `tierOf_spec`, plus the
closed distinctness conjuncts. -/
theorem tierOf_spec_witness :
    getRamyunLevelMeta 50 = getRamyunLevelMeta 0 ∧
    getRamyunLevelMeta 150 = getRamyunLevelMeta 100 ∧
    getRamyunLevelMeta 250 = getRamyunLevelMeta 200 ∧
    getRamyunLevelMeta 350 = getRamyunLevelMeta 300 ∧
    getRamyunLevelMeta 500 = getRamyunLevelMeta 400 ∧
    getRamyunLevelMeta 99 ≠ getRamyunLevelMeta 100 :=
  ⟨tierOf_spec.1 50 (by norm_num) (by norm_num),
   tierOf_spec.2.1 150 (by norm_num) (by norm_num),
   tierOf_spec.2.2.1 250 (by norm_num) (by norm_num),
   tierOf_spec.2.2.2.1 350 (by norm_num) (by norm_num),
   tierOf_spec.2.2.2.2.1 500 (by norm_num) (by norm_num),
   tierOf_spec.2.2.2.2.2.2⟩

/-- The audio-pipeline oracle where download and transcode succeed and
the transcription capability fails. -/
def audioOracleSttFail : AudioOracle where
  downloadOk := true
  transcodeOk := true
  transcription := .error ()
  unlinkOggOk := true
  unlinkMp3Ok := true

/-- C1 counterexample: when the transcription capability fails after a
successful transcode, `transcribeAudioFromUrl` exits with both scratch
files still on disk — cleanup is not run on this exit path. -/
theorem transcribe_cleanup_counterexample :
    (transcribeAudioFromUrl audioOracleSttFail 0).1 = .error .transcription ∧
    (transcribeAudioFromUrl audioOracleSttFail 0).2 = [oggName 0, mp3Name 0] ∧
    (transcribeAudioFromUrl audioOracleSttFail 0).2 ≠ [] :=
  ⟨rfl, rfl, by decide⟩

/-- C1 amended: the scratch artifacts are deleted only on the success
path (where deletion failures are swallowed); a transcode failure leaves
the downloaded input on disk, a transcription failure leaves both files,
and a download failure happens before any scratch file is created. -/
theorem transcribe_cleanup_amended (o : AudioOracle) (ts : Nat) :
    (o.downloadOk = false →
      transcribeAudioFromUrl o ts = (.error .download, [])) ∧
    (o.downloadOk = true → o.transcodeOk = false →
      transcribeAudioFromUrl o ts = (.error .transcode, [oggName ts])) ∧
    (o.downloadOk = true → o.transcodeOk = true → o.transcription = .error () →
      transcribeAudioFromUrl o ts = (.error .transcription, [oggName ts, mp3Name ts])) ∧
    (∀ t, o.downloadOk = true → o.transcodeOk = true → o.transcription = .ok t →
      o.unlinkOggOk = true → o.unlinkMp3Ok = true →
      transcribeAudioFromUrl o ts = (.ok (t.getD "").trim, [])) := by
  refine ⟨?_, ?_, ?_, ?_⟩
  · intro h
    simp [transcribeAudioFromUrl, h]
  · intro h1 h2
    simp [transcribeAudioFromUrl, h1, h2]
  · intro h1 h2 h3
    simp [transcribeAudioFromUrl, h1, h2, h3]
  · intro t h1 h2 h3 h4 h5
    simp [transcribeAudioFromUrl, h1, h2, h3, h4, h5]

/-- C1 amended witness: the transcription-failure and success branches
of `transcribe_cleanup_amended` at concrete oracles. -/
theorem transcribe_cleanup_amended_witness :
    transcribeAudioFromUrl audioOracleSttFail 7 =
      (.error .transcription, [oggName 7, mp3Name 7]) ∧
    transcribeAudioFromUrl
        { audioOracleSttFail with transcription := .ok (some " 안녕 ") } 7 =
      (.ok (((some " 안녕 ") : Option String).getD "").trim, []) :=
  ⟨(transcribe_cleanup_amended audioOracleSttFail 7).2.2.1 rfl rfl rfl,
   (transcribe_cleanup_amended
      { audioOracleSttFail with transcription := .ok (some " 안녕 ") } 7).2.2.2
      (some " 안녕 ") rfl rfl rfl rfl rfl⟩

/-- C6: submitting answers with no stored exercise fails with the
"no active task" outcome and leaves the whole session unchanged, for
both the reading and the listening variant. -/
theorem submitAnswers_noExercise
    (e : String → String → List String → String → Except Unit ReadingEval)
    (txt : String) (s : Session) :
    (s.reading.exercise = none →
      handleReadingAnswers e txt s =
        { session := s, outcome := .noActiveExercise, requests := [] }) ∧
    (s.listening.exercise = none →
      handleListeningAnswers e txt s =
        { session := s, outcome := .noActiveExercise, requests := [] }) := by
  constructor
  · intro h
    simp [handleReadingAnswers, h]
  · intro h
    simp [handleListeningAnswers, h]

/-- C6 witness: both conjuncts of `submitAnswers_noExercise` at the
fresh session (whose exercises are null). -/
theorem submitAnswers_noExercise_witness :
    handleReadingAnswers oracleOk.evalReading "my answers" createEmptySession =
      { session := createEmptySession, outcome := .noActiveExercise, requests := [] } ∧
    handleListeningAnswers oracleOk.evalReading "my answers" createEmptySession =
      { session := createEmptySession, outcome := .noActiveExercise, requests := [] } :=
  ⟨(submitAnswers_noExercise oracleOk.evalReading "my answers" createEmptySession).1 rfl,
   (submitAnswers_noExercise oracleOk.evalReading "my answers" createEmptySession).2 rfl⟩

lemma startReadingExercise_practiceType (gen : String → Except Unit Exercise)
    (s : Session) :
    (startReadingExercise gen s).session.practiceType = s.practiceType := by
  simp only [startReadingExercise]
  rcases gen (s.level.getD "1") <;> rfl

lemma startReadingExercise_listening (gen : String → Except Unit Exercise)
    (s : Session) :
    (startReadingExercise gen s).session.listening = s.listening := by
  simp only [startReadingExercise]
  rcases gen (s.level.getD "1") <;> rfl

lemma startReadingExercise_speaking (gen : String → Except Unit Exercise)
    (s : Session) :
    (startReadingExercise gen s).session.speaking = s.speaking := by
  simp only [startReadingExercise]
  rcases gen (s.level.getD "1") <;> rfl

lemma startListeningExercise_practiceType (gen : String → Except Unit Exercise)
    (tts : String → Except Unit Unit) (s : Session) :
    (startListeningExercise gen tts s).session.practiceType = s.practiceType := by
  rcases hg : gen (s.level.getD "1") with _ | ex
  · simp [startListeningExercise, hg]
  · rcases ht : tts ex.text <;> simp [startListeningExercise, hg, ht]

lemma startListeningExercise_reading (gen : String → Except Unit Exercise)
    (tts : String → Except Unit Unit) (s : Session) :
    (startListeningExercise gen tts s).session.reading = s.reading := by
  rcases hg : gen (s.level.getD "1") with _ | ex
  · simp [startListeningExercise, hg]
  · rcases ht : tts ex.text <;> simp [startListeningExercise, hg, ht]

lemma startListeningExercise_speaking (gen : String → Except Unit Exercise)
    (tts : String → Except Unit Unit) (s : Session) :
    (startListeningExercise gen tts s).session.speaking = s.speaking := by
  rcases hg : gen (s.level.getD "1") with _ | ex
  · simp [startListeningExercise, hg]
  · rcases ht : tts ex.text <;> simp [startListeningExercise, hg, ht]

lemma startSpeakingExercise_practiceType (gen : String → Except Unit SpeakingExercise)
    (s : Session) :
    (startSpeakingExercise gen s).session.practiceType = s.practiceType := by
  simp only [startSpeakingExercise]
  rcases gen (s.level.getD "1") <;> rfl

lemma startSpeakingExercise_reading (gen : String → Except Unit SpeakingExercise)
    (s : Session) :
    (startSpeakingExercise gen s).session.reading = s.reading := by
  simp only [startSpeakingExercise]
  rcases gen (s.level.getD "1") <;> rfl

lemma startSpeakingExercise_listening (gen : String → Except Unit SpeakingExercise)
    (s : Session) :
    (startSpeakingExercise gen s).session.listening = s.listening := by
  simp only [startSpeakingExercise]
  rcases gen (s.level.getD "1") <;> rfl

lemma startFreeChat_session (chat : String → String → Except Unit Unit)
    (s : Session) : (startFreeChat chat s).session = s := by
  simp only [startFreeChat]
  rcases chat (s.level.getD "1") "" <;> rfl

lemma handleFreeChatMessage_session (chat : String → String → Except Unit Unit)
    (txt : String) (s : Session) :
    (handleFreeChatMessage chat txt s).session = s := by
  simp only [handleFreeChatMessage]
  rcases chat (s.level.getD "1") txt <;> rfl

/-- C2 counterexample: with the reading mode waiting for answers,
selecting the speaking mode (generation succeeding) leaves
`reading.state` at `waiting_for_answers` — the other modes' sub-states
are not reset to `idle`. -/
theorem modeSwitch_counterexample :
    (handlePracticeChoice oracleOk .speaking sessionReadingWaiting).session.practiceType
        = some .speaking ∧
    (handlePracticeChoice oracleOk .speaking sessionReadingWaiting).session.reading.state
        ≠ RLState.idle :=
  ⟨rfl, by decide⟩

/-- C2 amended: selecting mode `m` sets `practiceType` to `m` (and
starts that mode), and leaves every other mode's whole sub-state —
state and exercise alike — unchanged; in particular nothing is reset to
`idle`, and re-selecting the active mode is likewise a no-op on the
other modes. -/
theorem modeSwitch_amended (o : Oracles) (t : PracticeType) (s : Session) :
    (handlePracticeChoice o t s).session.practiceType = some t ∧
    (t ≠ .reading → (handlePracticeChoice o t s).session.reading = s.reading) ∧
    (t ≠ .listening → (handlePracticeChoice o t s).session.listening = s.listening) ∧
    (t ≠ .speaking → (handlePracticeChoice o t s).session.speaking = s.speaking) := by
  cases t <;>
    refine ⟨?_, ?_, ?_, ?_⟩ <;>
      simp [handlePracticeChoice,
        startReadingExercise_practiceType, startReadingExercise_listening,
        startReadingExercise_speaking,
        startListeningExercise_practiceType, startListeningExercise_reading,
        startListeningExercise_speaking,
        startSpeakingExercise_practiceType, startSpeakingExercise_reading,
        startSpeakingExercise_listening,
        startFreeChat_session]

/-- C2 amended witness: `modeSwitch_amended` at the concrete
reading-waiting session, switching to speaking. -/
theorem modeSwitch_amended_witness :
    (handlePracticeChoice oracleOk .speaking sessionReadingWaiting).session.practiceType
        = some .speaking ∧
    (handlePracticeChoice oracleOk .speaking sessionReadingWaiting).session.reading
        = sessionReadingWaiting.reading :=
  ⟨(modeSwitch_amended oracleOk .speaking sessionReadingWaiting).1,
   (modeSwitch_amended oracleOk .speaking sessionReadingWaiting).2.1 (by decide)⟩

/-- C3 counterexample: starting a listening exercise on a fresh session
with generation succeeding but speech synthesis failing reports a
failure, yet the listening sub-state is no longer what it was before the
call — the new exercise is stored and the state is `waiting_for_answers`. -/
theorem startExercise_failure_counterexample :
    (startListeningExercise oracleTtsFail.genReading oracleTtsFail.tts
        createEmptySession).outcome = .failure ∧
    (startListeningExercise oracleTtsFail.genReading oracleTtsFail.tts
        createEmptySession).session.listening ≠ createEmptySession.listening :=
  ⟨rfl, by decide⟩

/-- C3 amended: a reading `startExercise` failure, and a listening
generation failure, leave the session exactly as before the call; but a
listening speech-synthesis failure happens after the session was already
mutated, leaving the freshly generated exercise stored with state
`waiting_for_answers`. -/
theorem startExercise_failure_amended (gen : String → Except Unit Exercise)
    (tts : String → Except Unit Unit) (s : Session) :
    (gen (s.level.getD "1") = .error () →
      startReadingExercise gen s =
        { session := s, outcome := .failure
          requests := [.generateReading (s.level.getD "1")] }) ∧
    (gen (s.level.getD "1") = .error () →
      startListeningExercise gen tts s =
        { session := s, outcome := .failure
          requests := [.generateReading (s.level.getD "1")] }) ∧
    (∀ ex, gen (s.level.getD "1") = .ok ex → tts ex.text = .error () →
      startListeningExercise gen tts s =
        { session := { s with
            listening := { state := .waiting_for_answers, exercise := some ex } }
          outcome := .failure
          requests := [.generateReading (s.level.getD "1"), .tts ex.text] }) := by
  refine ⟨?_, ?_, ?_⟩
  · intro h
    simp [startReadingExercise, h]
  · intro h
    simp [startListeningExercise, h]
  · intro ex h1 h2
    simp [startListeningExercise, h1, h2]

/-- C3 amended witness: the listening TTS-failure branch of
`startExercise_failure_amended` at the fresh session. -/
theorem startExercise_failure_amended_witness :
    startListeningExercise oracleTtsFail.genReading oracleTtsFail.tts
        createEmptySession =
      { session := { createEmptySession with
          listening := { state := .waiting_for_answers, exercise := some exA } }
        outcome := .failure
        requests := [.generateReading (createEmptySession.level.getD "1"),
          .tts exA.text] } :=
  (startExercise_failure_amended oracleTtsFail.genReading oracleTtsFail.tts
      createEmptySession).2.2 exA rfl rfl

/-- C4: in speaking mode waiting for voice, once transcription yields a
transcript it is stored into `lastTranscript`; an evaluation failure
leaves the session with exactly that stored transcript and the state
still `waiting_for_voice`, and the state becomes `idle` only on
evaluation success. -/
theorem submitVoice_transcript_spec (o : Oracles) (s : Session)
    (ex : SpeakingExercise) (t : String)
    (hp : s.practiceType = some .speaking)
    (hw : s.speaking.state = .waiting_for_voice)
    (he : s.speaking.exercise = some ex)
    (ht : o.transcribeResult = .ok t) :
    (onVoice o s).session.speaking.lastTranscript = some t ∧
    (o.evalSpeaking (s.level.getD "1") ex.topic ex.prompt_ko ex.prompt_ru t
        = .error () →
      (onVoice o s).session =
        { s with speaking := { s.speaking with lastTranscript := some t } } ∧
      (onVoice o s).session.speaking.state = .waiting_for_voice) ∧
    (∀ r, o.evalSpeaking (s.level.getD "1") ex.topic ex.prompt_ko ex.prompt_ru t
        = .ok r →
      (onVoice o s).session.speaking.state = .idle) := by
  have hnotfree : ¬ s.practiceType = some .free := by
    rw [hp]
    simp
  rcases hev : o.evalSpeaking (s.level.getD "1") ex.topic ex.prompt_ko ex.prompt_ru t
    with _ | r
  · refine ⟨?_, ?_, ?_⟩
    · simp [onVoice, hnotfree, hp, hw, ht, he, hev]
    · intro _
      constructor <;> simp [onVoice, hnotfree, hp, hw, ht, he, hev, hw]
    · intro r hr
      cases hr
  · refine ⟨?_, ?_, ?_⟩
    · rcases r with ⟨sc⟩
      rcases sc with _ | v <;>
        simp [onVoice, hnotfree, hp, hw, ht, he, hev, addScoreToStats_speaking]
    · intro hcontra
      cases hcontra
    · intro r' hr
      cases hr
      rcases r with ⟨sc⟩
      rcases sc with _ | v <;>
        simp [onVoice, hnotfree, hp, hw, ht, he, hev, addScoreToStats_speaking]

/-- C4 witness: `submitVoice_transcript_spec` at the concrete
speaking-waiting session with a failing evaluation capability. -/
theorem submitVoice_transcript_spec_witness :
    (onVoice oracleEvalSpeakFail sessionSpeakingWaiting).session.speaking.lastTranscript
        = some "저는 김치를 좋아해요." ∧
    (onVoice oracleEvalSpeakFail sessionSpeakingWaiting).session.speaking.state
        = .waiting_for_voice :=
  ⟨(submitVoice_transcript_spec oracleEvalSpeakFail sessionSpeakingWaiting spA
      "저는 김치를 좋아해요." rfl rfl rfl rfl).1,
   ((submitVoice_transcript_spec oracleEvalSpeakFail sessionSpeakingWaiting spA
      "저는 김치를 좋아해요." rfl rfl rfl rfl).2.1 rfl).2⟩

/-- C10: when `session.level` is null every mode operation substitutes
the default level `"1"` in its request to the external capability and
proceeds (a successful generation still yields a success outcome); no
operation rejects the call for a missing level. -/
theorem defaultLevel_spec (s : Session) (o : Oracles) (txt : String)
    (h : s.level = none) :
    (startReadingExercise o.genReading s).requests = [.generateReading "1"] ∧
    (startListeningExercise o.genReading o.tts s).requests.head?
        = some (.generateReading "1") ∧
    (startSpeakingExercise o.genSpeaking s).requests = [.generateSpeaking "1"] ∧
    (startFreeChat o.chat s).requests = [.freeChat "1" ""] ∧
    (handleFreeChatMessage o.chat txt s).requests = [.freeChat "1" txt] ∧
    (∀ ex, s.reading.exercise = some ex →
      (handleReadingAnswers o.evalReading txt s).requests
        = [.evaluateReading "1" ex.text ex.questions txt]) ∧
    (∀ ex, s.listening.exercise = some ex →
      (handleListeningAnswers o.evalReading txt s).requests
        = [.evaluateReading "1" ex.text ex.questions txt]) ∧
    (∀ ex t, s.practiceType = some .speaking →
      s.speaking.state = .waiting_for_voice → s.speaking.exercise = some ex →
      o.transcribeResult = .ok t →
      (onVoice o s).requests
        = [.transcribeVoice,
           .evaluateSpeaking "1" ex.topic ex.prompt_ko ex.prompt_ru t]) ∧
    (∀ ex, o.genReading "1" = .ok ex →
      (startReadingExercise o.genReading s).outcome = .success) := by
  have hl : s.level.getD "1" = "1" := by
    rw [h]
    rfl
  refine ⟨?_, ?_, ?_, ?_, ?_, ?_, ?_, ?_, ?_⟩
  · rcases hg : o.genReading (s.level.getD "1") <;>
      simp [startReadingExercise, hg, hl] at hg ⊢ <;>
      simp [startReadingExercise, hg]
  · rcases hg : o.genReading (s.level.getD "1") with _ | ex
    · rw [hl] at hg
      simp [startListeningExercise, hl, hg]
    · rw [hl] at hg
      rcases ht : o.tts ex.text <;> simp [startListeningExercise, hl, hg, ht]
  · rcases hg : o.genSpeaking (s.level.getD "1") <;>
      rw [hl] at hg <;> simp [startSpeakingExercise, hl, hg]
  · rcases hc : o.chat (s.level.getD "1") "" <;>
      rw [hl] at hc <;> simp [startFreeChat, hl, hc]
  · rcases hc : o.chat (s.level.getD "1") txt <;>
      rw [hl] at hc <;> simp [handleFreeChatMessage, hl, hc]
  · intro ex hex
    rcases he : o.evalReading "1" ex.text ex.questions txt <;>
      simp [handleReadingAnswers, hex, hl, he]
  · intro ex hex
    rcases he : o.evalReading "1" ex.text ex.questions txt <;>
      simp [handleListeningAnswers, hex, hl, he]
  · intro ex t hp hw hex ht
    have hnotfree : ¬ s.practiceType = some .free := by
      rw [hp]
      simp
    rcases he : o.evalSpeaking "1" ex.topic ex.prompt_ko ex.prompt_ru t <;>
      simp [onVoice, hnotfree, hp, hw, hex, ht, hl, he]
  · intro ex hg
    rw [← hl] at hg
    simp [startReadingExercise, hg]

/-- C10 witness: `defaultLevel_spec` at the concrete level-unset
speaking-waiting session: the reading start and the speaking evaluation
both carry level `"1"`. -/
theorem defaultLevel_spec_witness :
    (startReadingExercise oracleOk.genReading sessionSpeakingWaiting).requests
        = [.generateReading "1"] ∧
    (onVoice oracleOk sessionSpeakingWaiting).requests
        = [.transcribeVoice,
           .evaluateSpeaking "1" spA.topic spA.prompt_ko spA.prompt_ru
             "저는 김치를 좋아해요."] :=
  ⟨(defaultLevel_spec sessionSpeakingWaiting oracleOk "hello" rfl).1,
   (defaultLevel_spec sessionSpeakingWaiting oracleOk "hello" rfl).2.2.2.2.2.2.2.1
     spA "저는 김치를 좋아해요." rfl rfl rfl rfl⟩

/-! ## Invariant preservation (claim C7) -/

lemma waitingHasExercise_empty : WaitingHasExercise createEmptySession := by
  refine ⟨?_, ?_, ?_⟩ <;> intro h <;> cases h

lemma startReadingExercise_inv (gen : String → Except Unit Exercise) (s : Session)
    (h : WaitingHasExercise s) :
    WaitingHasExercise (startReadingExercise gen s).session := by
  obtain ⟨h1, h2, h3⟩ := h
  rcases hg : gen (s.level.getD "1") with _ | ex
  · simpa [startReadingExercise, hg, WaitingHasExercise] using ⟨h1, h2, h3⟩
  · refine ⟨?_, ?_, ?_⟩ <;> intro hw <;>
      simp [startReadingExercise, hg] at hw ⊢
    · exact h2 hw
    · exact h3 hw

lemma startListeningExercise_inv (gen : String → Except Unit Exercise)
    (tts : String → Except Unit Unit) (s : Session)
    (h : WaitingHasExercise s) :
    WaitingHasExercise (startListeningExercise gen tts s).session := by
  obtain ⟨h1, h2, h3⟩ := h
  rcases hg : gen (s.level.getD "1") with _ | ex
  · simpa [startListeningExercise, hg, WaitingHasExercise] using ⟨h1, h2, h3⟩
  · rcases ht : tts ex.text <;>
      (refine ⟨?_, ?_, ?_⟩ <;> intro hw <;>
        simp [startListeningExercise, hg, ht] at hw ⊢)
    · exact h1 hw
    · exact h3 hw
    · exact h1 hw
    · exact h3 hw

lemma startSpeakingExercise_inv (gen : String → Except Unit SpeakingExercise)
    (s : Session) (h : WaitingHasExercise s) :
    WaitingHasExercise (startSpeakingExercise gen s).session := by
  obtain ⟨h1, h2, h3⟩ := h
  rcases hg : gen (s.level.getD "1") with _ | ex
  · simpa [startSpeakingExercise, hg, WaitingHasExercise] using ⟨h1, h2, h3⟩
  · refine ⟨?_, ?_, ?_⟩ <;> intro hw <;>
      simp [startSpeakingExercise, hg] at hw ⊢
    · exact h1 hw
    · exact h2 hw

lemma handleReadingAnswers_inv
    (e : String → String → List String → String → Except Unit ReadingEval)
    (txt : String) (s : Session) (h : WaitingHasExercise s) :
    WaitingHasExercise (handleReadingAnswers e txt s).session := by
  obtain ⟨h1, h2, h3⟩ := h
  rcases hex : s.reading.exercise with _ | ex
  · have hs : (handleReadingAnswers e txt s).session = s := by
      simp [handleReadingAnswers, hex]
    rw [hs]
    exact ⟨h1, h2, h3⟩
  · rcases he : e (s.level.getD "1") ex.text ex.questions txt with _ | r
    · have hs : (handleReadingAnswers e txt s).session = s := by
        simp [handleReadingAnswers, hex, he]
      rw [hs]
      exact ⟨h1, h2, h3⟩
    · rcases r with ⟨sc⟩
      have hr : (handleReadingAnswers e txt s).session.reading.state = .idle := by
        rcases sc with _ | v <;> simp [handleReadingAnswers, hex, he]
      have hl : (handleReadingAnswers e txt s).session.listening = s.listening := by
        rcases sc with _ | v <;>
          simp [handleReadingAnswers, hex, he, addScoreToStats_listening]
      have hsp : (handleReadingAnswers e txt s).session.speaking = s.speaking := by
        rcases sc with _ | v <;>
          simp [handleReadingAnswers, hex, he, addScoreToStats_speaking]
      refine ⟨?_, ?_, ?_⟩
      · intro hw
        rw [hr] at hw
        cases hw
      · rw [hl]
        exact h2
      · rw [hsp]
        exact h3

lemma handleListeningAnswers_inv
    (e : String → String → List String → String → Except Unit ReadingEval)
    (txt : String) (s : Session) (h : WaitingHasExercise s) :
    WaitingHasExercise (handleListeningAnswers e txt s).session := by
  obtain ⟨h1, h2, h3⟩ := h
  rcases hex : s.listening.exercise with _ | ex
  · have hs : (handleListeningAnswers e txt s).session = s := by
      simp [handleListeningAnswers, hex]
    rw [hs]
    exact ⟨h1, h2, h3⟩
  · rcases he : e (s.level.getD "1") ex.text ex.questions txt with _ | r
    · have hs : (handleListeningAnswers e txt s).session = s := by
        simp [handleListeningAnswers, hex, he]
      rw [hs]
      exact ⟨h1, h2, h3⟩
    · rcases r with ⟨sc⟩
      have hr : (handleListeningAnswers e txt s).session.reading = s.reading := by
        rcases sc with _ | v <;>
          simp [handleListeningAnswers, hex, he, addScoreToStats_reading]
      have hl : (handleListeningAnswers e txt s).session.listening.state = .idle := by
        rcases sc with _ | v <;> simp [handleListeningAnswers, hex, he]
      have hsp : (handleListeningAnswers e txt s).session.speaking = s.speaking := by
        rcases sc with _ | v <;>
          simp [handleListeningAnswers, hex, he, addScoreToStats_speaking]
      refine ⟨?_, ?_, ?_⟩
      · rw [hr]
        exact h1
      · intro hw
        rw [hl] at hw
        cases hw
      · rw [hsp]
        exact h3

lemma handlePracticeChoice_inv (o : Oracles) (t : PracticeType) (s : Session)
    (h : WaitingHasExercise s) :
    WaitingHasExercise (handlePracticeChoice o t s).session := by
  cases t
  · exact startReadingExercise_inv o.genReading _ h
  · exact startListeningExercise_inv o.genReading o.tts _ h
  · exact startSpeakingExercise_inv o.genSpeaking _ h
  · rw [handlePracticeChoice, startFreeChat_session]
    exact h

lemma onText_inv (o : Oracles) (txt : String) (s : Session)
    (h : WaitingHasExercise s) :
    WaitingHasExercise (onText o txt s).session := by
  rw [onText]
  split_ifs
  · exact h
  · rw [handleFreeChatMessage_session]
    exact h
  · exact handleReadingAnswers_inv o.evalReading txt s h
  · exact handleListeningAnswers_inv o.evalReading txt s h
  · exact h
  · exact h

lemma onVoice_inv (o : Oracles) (s : Session)
    (h : WaitingHasExercise s) :
    WaitingHasExercise (onVoice o s).session := by
  obtain ⟨h1, h2, h3⟩ := h
  by_cases hfree : s.practiceType = some .free
  · have hs : (onVoice o s).session = s := by
      rcases ht : o.transcribeResult with _ | t <;>
        simp [onVoice, hfree, ht, handleFreeChatMessage_session]
    rw [hs]
    exact ⟨h1, h2, h3⟩
  · by_cases hns : s.practiceType ≠ some .speaking ∨
        s.speaking.state ≠ .waiting_for_voice
    · have hs : (onVoice o s).session = s := by
        simp only [onVoice, if_neg hfree, if_pos hns]
      rw [hs]
      exact ⟨h1, h2, h3⟩
    · push_neg at hns
      obtain ⟨hsp, hwv⟩ := hns
      have hnot : ¬ (s.practiceType ≠ some .speaking ∨
          s.speaking.state ≠ .waiting_for_voice) := by
        push_neg
        exact ⟨hsp, hwv⟩
      rcases ht : o.transcribeResult with _ | t
      · have hs : (onVoice o s).session = s := by
          simp only [onVoice, if_neg hfree, if_neg hnot, ht]
        rw [hs]
        exact ⟨h1, h2, h3⟩
      · rcases hex : s.speaking.exercise with _ | ex
        · exact absurd (h3 hwv) (by simp [hex])
        · rcases he : o.evalSpeaking (s.level.getD "1") ex.topic ex.prompt_ko
              ex.prompt_ru t with _ | r
          · have hs : (onVoice o s).session =
                { s with speaking := { s.speaking with lastTranscript := some t } } := by
              simp [onVoice, hfree, hnot, ht, hex, he]
            rw [hs]
            refine ⟨h1, h2, ?_⟩
            intro _
            simp [hex]
          · rcases r with ⟨sc⟩
            have hr : (onVoice o s).session.reading = s.reading := by
              rcases sc with _ | v <;>
                simp [onVoice, hfree, hnot, ht, hex, he, addScoreToStats_reading]
            have hl : (onVoice o s).session.listening = s.listening := by
              rcases sc with _ | v <;>
                simp [onVoice, hfree, hnot, ht, hex, he, addScoreToStats_listening]
            have hspk : (onVoice o s).session.speaking.state = .idle := by
              rcases sc with _ | v <;>
                simp [onVoice, hfree, hnot, ht, hex, he, addScoreToStats_speaking]
            refine ⟨?_, ?_, ?_⟩
            · rw [hr]
              exact h1
            · rw [hl]
              exact h2
            · intro hw
              rw [hspk] at hw
              cases hw

/-- C7: every session reachable from a fresh session through the public
operations satisfies the invariant: whenever a mode's sub-state is
`waiting_for_answers` / `waiting_for_voice`, that mode's `exercise`
field is non-null. -/
theorem reachable_waitingHasExercise (s : Session) (h : Reachable s) :
    WaitingHasExercise s := by
  induction h with
  | refl => exact waitingHasExercise_empty
  | tail _ hstep ih =>
    cases hstep with
    | start => exact waitingHasExercise_empty
    | level lvl => exact ih
    | changeLevel => exact ih
    | choice o t => exact handlePracticeChoice_inv o t _ ih
    | text o txt => exact onText_inv o txt _ ih
    | voice o => exact onVoice_inv o _ ih
    | nextReading o => exact startReadingExercise_inv o.genReading _ ih
    | nextListening o => exact startListeningExercise_inv o.genReading o.tts _ ih
    | nextSpeaking o => exact startSpeakingExercise_inv o.genSpeaking _ ih
    | modeInline => exact ih

/-- C7 witness: the invariant at the fresh session, which is reachable
by the empty step sequence. -/
theorem reachable_waitingHasExercise_witness :
    WaitingHasExercise createEmptySession :=
  reachable_waitingHasExercise createEmptySession Relation.ReflTransGen.refl

end Hangram
